import Mathlib

/-!
# Verification of the fractal fire-detection pipeline

A shallow embedding, over the rationals, of the decision-relevant code of the
multi-phase wildfire detection system: the Phase-1 watchdog (sensor validation,
trauma memory), the Phase-0 fusion engine (fire decision), the Phase-3 chaos
kernel, the Phase-5 logic gate (composite risk), and the Phase-6 communication
layer (alert routing, Queen/Drone mesh, Queen aggregation).

Python floats are modelled as `ℚ`; wall-clock instants as `ℚ` seconds.
Transcendental float subroutines (Haversine distance, `log`-ratio divergences,
square roots, Pearson correlation) are abstracted as explicit function
parameters; every theorem quantifies over them universally, so no property of
the abstracted computation is assumed.
-/

namespace FireMamba

/-- Append to a bounded ring buffer (Python `deque(maxlen = cap)`): push on the
right, drop from the left when over capacity. -/
def pushCap (cap : ℕ) (l : List α) (x : α) : List α :=
  let l' := l ++ [x]
  l'.drop (l'.length - cap)

/-- Arithmetic mean of a list of rationals (`np.mean`); `0` on the empty list
(the embedding only applies it to lists the code has checked non-empty). -/
def listMean (l : List ℚ) : ℚ := l.sum / l.length

/-- Maximum of a list of rationals, `0` on the empty list (`max(...)` in Python
is only reached on non-empty lists). -/
def listMax (l : List ℚ) : ℚ := l.foldr max 0

/-- Clamp a rational into `[lo, hi]` (`max(lo, min(hi, x))`). -/
def clampQ (lo hi x : ℚ) : ℚ := max lo (min hi x)

/-- Deduplicate keeping first occurrences.  Models Python `list(set(...))`,
whose iteration order is unspecified; the first-occurrence order is the
canonical choice here. -/
def dedupFirst (l : List String) : List String :=
  l.foldl (fun acc s => if s ∈ acc then acc else acc ++ [s]) []

-- ═══════════════════════════════════════════════════════════════════════════
-- Phase-1 watchdog: trauma system
-- (src/phases/phase1_watchdog/watchdog_layer.py, class TraumaSystem)
-- ═══════════════════════════════════════════════════════════════════════════

/-- State of `TraumaSystem` (watchdog layer).  `trauma_events` records the
severities appended by `register_trauma`; `last_decay` is an instant in
seconds.  `decay_days` is the constructor argument (default 7). -/
structure TraumaSystem where
  trauma_level : ℚ
  trauma_events : List ℚ
  decay_days : ℚ
  last_decay : ℚ
  deriving Repr, DecidableEq

/-- `TraumaSystem.__init__(decay_days=7)` with the clock at `now`. -/
def TraumaSystem.init (now : ℚ) : TraumaSystem :=
  { trauma_level := 0, trauma_events := [], decay_days := 7, last_decay := now }

/-- `TraumaSystem.register_trauma(severity, description)`:
`trauma_level = min(1.0, trauma_level + severity * 0.3)` and the event is
appended (descriptions carry no state and are dropped). -/
def TraumaSystem.register_trauma (t : TraumaSystem) (severity : ℚ) : TraumaSystem :=
  { t with
    trauma_events := t.trauma_events ++ [severity]
    trauma_level := min 1 (t.trauma_level + severity * (3/10)) }

/-- `TraumaSystem.apply_decay()` at wall-clock instant `now`:
`days_elapsed = (now - last_decay)/86400`; if `days_elapsed >= 1.0` then
`trauma_level = max(0.0, trauma_level - 0.05 * days_elapsed)` and
`last_decay = now`.  Note the code uses the constant `0.05`, not `decay_days`. -/
def TraumaSystem.apply_decay (t : TraumaSystem) (now : ℚ) : TraumaSystem :=
  let days_elapsed := (now - t.last_decay) / 86400
  if 1 ≤ days_elapsed then
    { t with
      trauma_level := max 0 (t.trauma_level - (5/100) * days_elapsed)
      last_decay := now }
  else t

/-- One externally triggerable trauma operation: a `register_trauma` call with
a given severity, or an `apply_decay` call at a given instant. -/
inductive TraumaOp
  | register (severity : ℚ)
  | decay (now : ℚ)
  deriving Repr, DecidableEq

/-- A `register` call is well-formed when its severity lies in `[0, 1]`
(severities the callers pass are 1.0 for a dying gasp and 0.5 for a frozen
sensor). -/
def TraumaOp.validSeverity : TraumaOp → Prop
  | .register s => 0 ≤ s ∧ s ≤ 1
  | .decay _ => True

instance : DecidablePred TraumaOp.validSeverity := by
  intro op
  cases op <;> unfold TraumaOp.validSeverity <;> infer_instance

/-- Apply one trauma operation. -/
def TraumaSystem.step : TraumaSystem → TraumaOp → TraumaSystem
  | t, .register s => t.register_trauma s
  | t, .decay now => t.apply_decay now

/-- Apply a sequence of trauma operations, oldest first. -/
def TraumaSystem.run (t : TraumaSystem) (ops : List TraumaOp) : TraumaSystem :=
  ops.foldl TraumaSystem.step t

-- ═══════════════════════════════════════════════════════════════════════════
-- Phase-1 watchdog: sensor validation
-- (src/phases/phase1_watchdog/watchdog_layer.py, class Phase1WatchdogLayer)
-- ═══════════════════════════════════════════════════════════════════════════

/-- Lookup in an insertion-ordered association list (a Python `dict`). -/
def alistGet (k : String) : List (String × β) → Option β
  | [] => none
  | (k', v) :: rest => if k' = k then some v else alistGet k rest

/-- Insert-or-update in an insertion-ordered association list (Python
`d[k] = v`: updates in place, or appends a new key at the end). -/
def alistSet (k : String) (v : β) : List (String × β) → List (String × β)
  | [] => [(k, v)]
  | (k', v') :: rest =>
      if k' = k then (k', v) :: rest else (k', v') :: alistSet k v rest

/-- A sensor reading.  In the embedding a reading always carries a value; a
missing reading (Python `None`, or a reading whose `value` is `None`) is
modelled as `Option.none` at the `validate` boundary. -/
structure SensorReading where
  sensor_id : String
  value : ℚ
  timestamp : ℚ
  sensor_type : String
  deriving Repr, DecidableEq

/-- Result of Phase-1 validation.  `validation_flags` is flattened into the
three boolean fields; `failure_reason` keeps a discriminating tag of the
Python message (which interpolates the offending values); `paranoid_mode` is
the `metadata['paranoid_mode']` entry (absent entries read as `false`). -/
structure ValidationResult where
  is_valid : Bool
  value : ℚ
  reliability_score : ℚ
  is_imputed : Bool
  failure_reason : Option String
  range_check : Bool
  frozen_check : Bool
  null_check : Bool
  paranoid_mode : Bool
  deriving Repr, DecidableEq

/-- Persistent per-sensor state (`SensorState` dataclass). -/
structure SensorState where
  sensor_id : String
  last_value : Option ℚ
  last_timestamp : Option ℚ
  value_history : List ℚ
  timestamp_history : List ℚ
  frozen_since : Option ℚ
  is_broken : Bool
  failure_count : ℕ
  deriving Repr, DecidableEq

/-- Fresh sensor state (`SensorState(sensor_id=...)` with dataclass defaults). -/
def SensorState.init (id : String) : SensorState :=
  { sensor_id := id, last_value := none, last_timestamp := none,
    value_history := [], timestamp_history := [], frozen_since := none,
    is_broken := false, failure_count := 0 }

/-- One entry of `config['sensor_ranges']`. -/
structure RangeCfg where
  rmin : ℚ
  rmax : ℚ
  dying_gasp : Option ℚ
  deriving Repr, DecidableEq

/-- `Phase1WatchdogLayer._default_config()['sensor_ranges']`. -/
def defaultSensorRanges : List (String × RangeCfg) :=
  [("temperature", ⟨-40, 120, some 100⟩),
   ("humidity", ⟨0, 100, none⟩),
   ("co2", ⟨0, 5000, none⟩),
   ("smoke", ⟨0, 1000, some 800⟩),
   ("flame", ⟨0, 1, none⟩)]

/-- Watchdog statistics counters. -/
structure WatchdogStats where
  total_processed : ℕ
  range_failures : ℕ
  frozen_failures : ℕ
  null_failures : ℕ
  imputations : ℕ
  dying_gasps : ℕ
  deriving Repr, DecidableEq

/-- State of `Phase1WatchdogLayer`. -/
structure Watchdog where
  sensor_ranges : List (String × RangeCfg)
  frozen_threshold_hours : ℚ
  black_box_buffer_seconds : ℚ
  sensor_states : List (String × SensorState)
  trauma_system : TraumaSystem
  stats : WatchdogStats
  deriving Repr, DecidableEq

/-- `Phase1WatchdogLayer()` with the default config, clock at `now`. -/
def Watchdog.init (now : ℚ) : Watchdog :=
  { sensor_ranges := defaultSensorRanges, frozen_threshold_hours := 5,
    black_box_buffer_seconds := 30, sensor_states := [],
    trauma_system := TraumaSystem.init now,
    stats := ⟨0, 0, 0, 0, 0, 0⟩ }

/-- `_trigger_dying_gasp`: bump the `dying_gasps` counter, register trauma of
severity 1.0, and mark the sensor broken when it already has state.  The
black-box snapshot is assembled and logged only (the satellite call is
commented out in the source), so it does not alter state. -/
def Watchdog.trigger_dying_gasp (w : Watchdog) (r : SensorReading) : Watchdog :=
  let w := { w with
    stats := { w.stats with dying_gasps := w.stats.dying_gasps + 1 }
    trauma_system := w.trauma_system.register_trauma 1 }
  match alistGet r.sensor_id w.sensor_states with
  | some st =>
      { w with sensor_states :=
          alistSet r.sensor_id { st with is_broken := true } w.sensor_states }
  | none => w

/-- `_check_range`: unknown sensor types are accepted outright; a configured
`dying_gasp` threshold is checked first (`value >= dying_gasp` triggers the
protocol), then the physical bounds. -/
def Watchdog.check_range (w : Watchdog) (r : SensorReading) :
    Watchdog × Bool × Option String :=
  match alistGet r.sensor_type w.sensor_ranges with
  | none => (w, true, none)
  | some cfg =>
      let bounds : Watchdog × Bool × Option String :=
        if r.value < cfg.rmin ∨ cfg.rmax < r.value then
          ({ w with stats :=
              { w.stats with range_failures := w.stats.range_failures + 1 } },
           false, some "out_of_range")
        else (w, true, none)
      match cfg.dying_gasp with
      | some g =>
          if g ≤ r.value then (w.trigger_dying_gasp r, false, some "dying_gasp")
          else bounds
      | none => bounds

/-- `_check_frozen`: a first-seen sensor gets fresh state and passes; an
unchanged value starts or continues the `frozen_since` timer, failing (sensor
broken, trauma 0.5) once the frozen span reaches `frozen_threshold_hours`; a
changed value resets the timer. -/
def Watchdog.check_frozen (w : Watchdog) (r : SensorReading) :
    Watchdog × Bool × Option String :=
  match alistGet r.sensor_id w.sensor_states with
  | none =>
      ({ w with sensor_states :=
          alistSet r.sensor_id (SensorState.init r.sensor_id) w.sensor_states },
       true, none)
  | some st =>
      if st.last_value = some r.value then
        match st.frozen_since with
        | none =>
            let st := { st with frozen_since := some r.timestamp }
            ({ w with sensor_states := alistSet r.sensor_id st w.sensor_states },
             true, none)
        | some fs =>
            let frozen_hours := (r.timestamp - fs) / 3600
            if w.frozen_threshold_hours ≤ frozen_hours then
              let st := { st with is_broken := true }
              ({ w with
                  sensor_states := alistSet r.sensor_id st w.sensor_states
                  stats := { w.stats with
                    frozen_failures := w.stats.frozen_failures + 1 }
                  trauma_system := w.trauma_system.register_trauma (1/2) },
               false, some "frozen")
            else (w, true, none)
      else
        let st := { st with frozen_since := (none : Option ℚ) }
        ({ w with sensor_states := alistSet r.sensor_id st w.sensor_states },
         true, none)

/-- `_update_sensor_state`: record the latest value/timestamp and push both
onto the capacity-100 history rings. -/
def Watchdog.update_sensor_state (w : Watchdog) (r : SensorReading) : Watchdog :=
  let st := (alistGet r.sensor_id w.sensor_states).getD (SensorState.init r.sensor_id)
  let st := { st with
    last_value := some r.value
    last_timestamp := some r.timestamp
    value_history := pushCap 100 st.value_history r.value
    timestamp_history := pushCap 100 st.timestamp_history r.timestamp }
  { w with sensor_states := alistSet r.sensor_id st w.sensor_states }

/-- `_apply_trauma_context`: decay trauma first, then in paranoid mode
(`trauma_level > 0`) multiply the reliability by `1 - 0.1 * trauma_level`. -/
def Watchdog.apply_trauma_context (w : Watchdog) (res : ValidationResult)
    (now : ℚ) : Watchdog × ValidationResult :=
  let w := { w with trauma_system := w.trauma_system.apply_decay now }
  if 0 < w.trauma_system.trauma_level then
    (w, { res with
      reliability_score :=
        res.reliability_score * (1 - (1/10) * w.trauma_system.trauma_level)
      paranoid_mode := true })
  else (w, { res with paranoid_mode := false })

/-- `VirtualSensorImputation.impute_missing_value`: temporal mean of the last 5
values (confidence 0.7) when the sensor has at least 2 history samples, else
the humidity proxy for temperature (confidence 0.6), else a physics default
(confidence 0.5), else `(0, 0)`. -/
def imputeMissingValue (sensor_id sensor_type : String)
    (available : List (String × ℚ)) (states : List (String × SensorState)) :
    ℚ × ℚ :=
  let temporal : Option (ℚ × ℚ) :=
    match alistGet sensor_id states with
    | some st =>
        if 2 ≤ st.value_history.length then
          some (listMean (st.value_history.drop (st.value_history.length - 5)), 7/10)
        else none
    | none => none
  match temporal with
  | some p => p
  | none =>
      match (if sensor_type = "temperature" then alistGet "humidity" available else none) with
      | some h => (100 - h * (8/10), 6/10)
      | none =>
          match alistGet sensor_type
              [("temperature", (25 : ℚ)), ("humidity", 50), ("co2", 400), ("smoke", 0)] with
          | some d => (d, 1/2)
          | none => (0, 0)

/-- The `total_processed` increment at the top of `validate` (named so the
theorems can speak about the intermediate state). -/
def Watchdog.bumpProcessed (w : Watchdog) : Watchdog :=
  { w with stats :=
    { w.stats with total_processed := w.stats.total_processed + 1 } }

/-- `Phase1WatchdogLayer.validate`: the null check routes a present reading
through range → frozen → state update → trauma context, and a missing reading
through the imputation engine. -/
def Watchdog.validate (w : Watchdog) (reading : Option SensorReading)
    (sensor_id sensor_type : String) (available : List (String × ℚ))
    (now : ℚ) : Watchdog × ValidationResult :=
  let w := w.bumpProcessed
  match reading with
  | some r =>
      match w.check_range r with
      | (w, false, rReason) =>
          (w, { is_valid := false, value := r.value, reliability_score := 0,
                is_imputed := false, failure_reason := rReason,
                range_check := false, frozen_check := false, null_check := true,
                paranoid_mode := false })
      | (w, true, _) =>
          match w.check_frozen r with
          | (w, false, fReason) =>
              (w, { is_valid := false, value := r.value, reliability_score := 0,
                    is_imputed := false, failure_reason := fReason,
                    range_check := true, frozen_check := false, null_check := true,
                    paranoid_mode := false })
          | (w, true, _) =>
              let w := w.update_sensor_state r
              let res : ValidationResult :=
                { is_valid := true, value := r.value, reliability_score := 1,
                  is_imputed := false, failure_reason := none,
                  range_check := true, frozen_check := true, null_check := true,
                  paranoid_mode := false }
              w.apply_trauma_context res now
  | none =>
      let w := { w with stats :=
        { w.stats with null_failures := w.stats.null_failures + 1 } }
      let iv := imputeMissingValue sensor_id sensor_type available w.sensor_states
      if 0 < iv.2 then
        let w := { w with stats :=
          { w.stats with imputations := w.stats.imputations + 1 } }
        let res : ValidationResult :=
          { is_valid := true, value := iv.1, reliability_score := iv.2 * (8/10),
            is_imputed := true, failure_reason := none,
            range_check := true, frozen_check := true, null_check := false,
            paranoid_mode := false }
        w.apply_trauma_context res now
      else
        (w, { is_valid := false, value := 0, reliability_score := 0,
              is_imputed := false, failure_reason := some "cannot_reconstruct",
              range_check := false, frozen_check := false, null_check := false,
              paranoid_mode := false })

-- ═══════════════════════════════════════════════════════════════════════════
-- Phase-0 fusion engine
-- (src/phases/phase0_fusion/fusion_engine.py, class Phase0FusionEngine)
-- ═══════════════════════════════════════════════════════════════════════════

/-- The chemical-modality features the fusion engine reads
(`voc_level`, `terpene_level`, `combustion_byproducts`,
`rapid_change_detected`).  Keys the engine never reads are omitted. -/
structure ChemicalState where
  voc_level : ℚ
  terpene_level : ℚ
  combustion_byproducts : ℚ
  rapid_change_detected : Bool
  deriving Repr, DecidableEq

/-- The visual-modality features the fusion engine reads. -/
structure VisualState where
  smoke_presence : ℚ
  brightness_anomaly : ℚ
  deriving Repr, DecidableEq

/-- The environmental-context features the fusion engine reads. -/
structure EnvContext where
  ignition_susceptibility : ℚ
  soil_dryness : ℚ
  deriving Repr, DecidableEq

/-- The fields of a Phase-1 `ValidationResult` the fusion engine reads. -/
structure ValidatedSensor where
  is_valid : Bool
  reliability_score : ℚ
  is_imputed : Bool
  deriving Repr, DecidableEq

/-- The fusion configuration entries `fuse` consults. -/
structure FusionConfig where
  temporal_smoothing : Bool
  smoothing_alpha : ℚ
  enable_contextual_modulation : Bool
  deriving Repr, DecidableEq

/-- `Phase0FusionEngine._default_config()`. -/
def defaultFusionConfig : FusionConfig :=
  { temporal_smoothing := true, smoothing_alpha := 7/10,
    enable_contextual_modulation := true }

/-- `np.mean` of three scalars. -/
def mean3 (a b c : ℚ) : ℚ := (a + b + c) / 3

/-- `np.mean` of two scalars. -/
def mean2 (a b : ℚ) : ℚ := (a + b) / 2

/-- `np.var` (population variance) of three scalars. -/
def var3 (a b c : ℚ) : ℚ :=
  let μ := mean3 a b c
  ((a - μ) ^ 2 + (b - μ) ^ 2 + (c - μ) ^ 2) / 3

/-- `_apply_contextual_modulation`: soil dryness below 0.3 discounts the three
chemical indicators (factor 0.5–1.0), above 0.7 amplifies (1.0–1.3), else
leaves them unchanged; each indicator is capped at 1. -/
def applyContextualModulation (chem : ChemicalState) (env : EnvContext) :
    ChemicalState :=
  let d := env.soil_dryness
  let factor :=
    if d < 3/10 then 1/2 + d / (3/10) * (1/2)
    else if 7/10 < d then 1 + (d - 7/10) / (3/10) * (3/10)
    else 1
  { chem with
    voc_level := min (chem.voc_level * factor) 1
    terpene_level := min (chem.terpene_level * factor) 1
    combustion_byproducts := min (chem.combustion_byproducts * factor) 1 }

/-- `_compute_cross_modal_agreement`:
`agreement = max(0, 1 - var(indicators) / 0.25)` over the three per-modality
fire indicators. -/
def computeCrossModalAgreement (chem : ChemicalState) (vis : VisualState)
    (env : EnvContext) : ℚ :=
  let chemScore := mean3 chem.voc_level chem.terpene_level chem.combustion_byproducts
  let visScore := mean2 vis.smoke_presence vis.brightness_anomaly
  let envScore := env.ignition_susceptibility
  max 0 (1 - var3 chemScore visScore envScore / (1/4))

/-- `_detect_disagreements`: the three named contradiction flags, plus
`multiple_modality_conflicts` when at least two of them fired. -/
def detectDisagreements (chem : ChemicalState) (vis : VisualState)
    (env : EnvContext) : List String :=
  let chemScore := chem.voc_level + chem.combustion_byproducts
  let visScore := vis.smoke_presence
  let envRisk := env.ignition_susceptibility
  let f1 := if 3/5 < chemScore ∧ visScore < 3/10 then ["chemical_high_visual_low"] else []
  let f2 := if 3/5 < visScore ∧ chemScore < 3/10 then ["visual_high_chemical_low"] else []
  let f3 := if (3/5 < chemScore ∨ 3/5 < visScore) ∧ envRisk < 3/10 then
      ["fire_signals_in_safe_environment"] else []
  let flags := f1 ++ f2 ++ f3
  if 2 ≤ flags.length then flags ++ ["multiple_modality_conflicts"] else flags

/-- `_compute_overall_confidence`: mean reliability of the valid sensors,
penalised by up to 20 percent for the imputed fraction, clamped to `[0, 1]`;
`0` when there is no valid sensor. -/
def computeOverallConfidence (sensors : List ValidatedSensor) : ℚ :=
  match sensors with
  | [] => 0
  | _ =>
      let valid := sensors.filter (·.is_valid)
      let rel := valid.map (·.reliability_score)
      match rel with
      | [] => 0
      | _ =>
          let avg := listMean rel
          let imputed := (valid.filter (·.is_imputed)).length
          let ratio := (imputed : ℚ) / rel.length
          clampQ 0 1 (avg * (1 - ratio * (1/5)))

/-- `_compute_fire_risk`: weighted sum of the per-modality risks (the chemical
risk boosted by 1.2 and capped at 1 on rapid change), scaled by the agreement
multiplier `0.5 + 0.5 * agreement`, clamped to `[0, 1]`. -/
def computeFireRisk (chem : ChemicalState) (vis : VisualState) (env : EnvContext)
    (agreement : ℚ) : ℚ :=
  let chemRisk := mean3 chem.voc_level chem.terpene_level chem.combustion_byproducts
  let chemRisk := if chem.rapid_change_detected then min (chemRisk * (12/10)) 1 else chemRisk
  let visRisk := mean2 vis.smoke_presence vis.brightness_anomaly
  let envRisk := env.ignition_susceptibility
  let baseRisk := chemRisk * (1/2) + visRisk * (3/10) + envRisk * (1/5)
  let agreementMultiplier := 1/2 + agreement * (1/2)
  clampQ 0 1 (baseRisk * agreementMultiplier)

/-- `_apply_temporal_smoothing`: exponential moving average with weight `α` on
the current value. -/
def applyTemporalSmoothing (α current previous : ℚ) : ℚ :=
  α * current + (1 - α) * previous

/-- `_make_fire_decision`: no decision below confidence 0.5; fire above risk
0.85; fire above risk 0.7 with agreement above 0.6; otherwise no fire. -/
def makeFireDecision (fire_risk agreement confidence : ℚ) : Bool :=
  if confidence < 1/2 then false
  else if 17/20 < fire_risk then true
  else if 7/10 < fire_risk ∧ 3/5 < agreement then true
  else false

/-- The `EnvironmentalState` fields `fuse` fills from its computation. -/
structure EnvironmentalState where
  chemical_state : ChemicalState
  visual_state : VisualState
  environmental_context : EnvContext
  cross_modal_agreement : ℚ
  overall_confidence : ℚ
  disagreement_flags : List String
  fire_risk_score : ℚ
  fire_detected : Bool
  raw_sensor_count : ℕ
  valid_sensor_count : ℕ
  imputed_sensor_count : ℕ
  phase1_trauma_level : ℚ
  deriving Repr, DecidableEq

/-- `Phase0FusionEngine.fuse`, with the three processor outputs as inputs
(steps 2–9 of the pipeline; step 1 runs the processors, which live in their
own modules).  `last_risk` is `self.last_state.fire_risk_score` when a prior
state exists. -/
def fuse (cfg : FusionConfig) (chem : ChemicalState) (vis : VisualState)
    (env : EnvContext) (sensors : List ValidatedSensor)
    (last_risk : Option ℚ) (phase1_trauma : ℚ) : EnvironmentalState :=
  let chem := if cfg.enable_contextual_modulation then
      applyContextualModulation chem env else chem
  let agreement := computeCrossModalAgreement chem vis env
  let flags := detectDisagreements chem vis env
  let confidence := computeOverallConfidence sensors
  let risk0 := computeFireRisk chem vis env agreement
  let risk :=
    match last_risk with
    | some prev =>
        if cfg.temporal_smoothing then
          applyTemporalSmoothing cfg.smoothing_alpha risk0 prev
        else risk0
    | none => risk0
  let detected := makeFireDecision risk agreement confidence
  { chemical_state := chem, visual_state := vis, environmental_context := env,
    cross_modal_agreement := agreement, overall_confidence := confidence,
    disagreement_flags := flags, fire_risk_score := risk,
    fire_detected := detected,
    raw_sensor_count := sensors.length,
    valid_sensor_count := (sensors.filter (·.is_valid)).length,
    imputed_sensor_count := (sensors.filter (·.is_imputed)).length,
    phase1_trauma_level := phase1_trauma }

-- ═══════════════════════════════════════════════════════════════════════════
-- Phase-5 logic gate: composite risk
-- (src/phases/phase5_logic/logic_gate.py, Phase5LogicGate._compute_risk_score)
-- ═══════════════════════════════════════════════════════════════════════════

/-- The `PhaseInputs` dataclass (Phase-5 inputs bundle). -/
structure PhaseInputs where
  fire_risk_score : ℚ
  cross_modal_agreement : ℚ
  temporal_trend : String
  persistence : ℚ
  has_structure : Bool
  hurst_exponent : ℚ
  is_unstable : Bool
  lyapunov_exponent : ℚ
  vision_confidence : ℚ
  camera_healthy : Bool
  smoke_confidence : ℚ
  trauma_level : ℚ
  deriving Repr, DecidableEq

/-- `Phase5LogicGate._compute_risk_score` (`gate_trauma` is the gate's own
`self.trauma_level`).  Note the structure term is
`((hurst - 0.5) / 1.0 if has_structure else 0.0) * 0.15`, with no lower
clamp, exactly as in the source. -/
def computeRiskScore (gate_trauma : ℚ) (inputs : PhaseInputs) : ℚ :=
  let base_risk := inputs.fire_risk_score * (4/10)
  let structure_risk :=
    (if inputs.has_structure then (inputs.hurst_exponent - 1/2) / 1 else 0) * (15/100)
  let chaos_risk :=
    (if inputs.is_unstable then max 0 inputs.lyapunov_exponent else 0) * (15/100)
  let vision_risk :=
    (if inputs.camera_healthy then inputs.smoke_confidence else 0) * (1/5)
  let temporal_risk :=
    (if inputs.temporal_trend = "rising" then 5/100 else 0) +
    (if 3/5 < inputs.persistence then 5/100 else 0)
  let agreement_bonus := inputs.cross_modal_agreement * (1/10)
  let trauma_contribution := gate_trauma * (5/100)
  clampQ 0 1 (base_risk + structure_risk + chaos_risk + vision_risk +
    temporal_risk + agreement_bonus + trauma_contribution)

/-- Modelled from the spec: the structure contribution of the composite risk,
`0.15 * max(0, (hurst - 0.5) / 1.0) * [has_structure]` (spec section 4.8).
Kept separate from `computeRiskScore` so the code formula can be compared
against the specified one. -/
def specStructureTerm (inputs : PhaseInputs) : ℚ :=
  (if inputs.has_structure then max 0 ((inputs.hurst_exponent - 1/2) / 1) else 0) * (15/100)

-- ═══════════════════════════════════════════════════════════════════════════
-- Phase-3 chaos kernel
-- (src/phases/phase3_chaos/chaos_kernel.py, class Phase3ChaosKernel)
-- ═══════════════════════════════════════════════════════════════════════════

/-- Population variance of a list (`np.var`); `0` on the empty list. -/
def listVar (l : List ℚ) : ℚ :=
  listMean (l.map fun x => (x - listMean l) ^ 2)

/-- `ChaosAnalysisResult` (diagnostic timestamp omitted;
`samples_analyzed = window_size` in every branch of the source). -/
structure ChaosAnalysisResult where
  lyapunov_exponent : ℚ
  is_unstable : Bool
  positive_feedback : ℚ
  suspicion_level : ℚ
  confidence : ℚ
  window_size : ℕ
  divergence_rate : ℚ
  deriving Repr, DecidableEq

/-- `_time_delay_embedding` with `delay = 1`: row `r` is
`[s[r], s[r+1], ..., s[r+dim-1]]`, for `r < n - (dim - 1)`; empty when
`n - (dim - 1) <= 0`. -/
def timeDelayEmbedding (s : List ℚ) (dim : ℕ) : List (List ℚ) :=
  if s.length + 1 ≤ dim then []
  else (List.range (s.length - (dim - 1))).map fun r =>
    (List.range dim).map fun j => s.getD (r + j) 0

/-- Squared Euclidean distance between two embedded points
(`np.linalg.norm(a - b) ** 2`; the guards `d > 0` of the source are
equivalent to `d^2 > 0`, so only the square is needed in rational form). -/
def distSq (a b : List ℚ) : ℚ :=
  (List.zipWith (fun x y => (x - y) ^ 2) a b).sum

/-- The divergence samples collected by `_compute_lyapunov_exponent`: for each
`i`, when the step distance `d0` is positive, the 5-ahead point exists and its
distance `d_future` is positive, the sample `log(d_future / d0) / 5` is kept.
The transcendental value is abstracted as `logdiv`, a function of the two
squared distances (`d = sqrt(dsq)`, so the pair determines it); every theorem
below quantifies over `logdiv` universally. -/
def lyapunovDivergences (logdiv : ℚ → ℚ → ℚ) (rows : List (List ℚ)) : List ℚ :=
  (List.range (rows.length - 1)).filterMap fun i =>
    let x0 := rows.getD i []
    let x1 := rows.getD (i + 1) []
    let d0sq := distSq x1 x0
    if 0 < d0sq then
      if i + 5 < rows.length then
        let dfsq := distSq (rows.getD (i + 5) []) x0
        if 0 < dfsq then some (logdiv dfsq d0sq) else none
      else none
    else none

/-- `_compute_lyapunov_exponent`: the mean of the divergence samples, clamped
to `[-2, 2]`, with a confidence built from the sample count and (for more
than 5 samples) the stability factor `1 / (1 + std)`.  `sqrtQ` abstracts the
float square root inside `np.std`. -/
def computeLyapunovExponent (logdiv : ℚ → ℚ → ℚ) (sqrtQ : ℚ → ℚ)
    (min_window dim : ℕ) (s : List ℚ) : ℚ × ℚ :=
  if s.length < min_window then (0, 0)
  else
    let rows := timeDelayEmbedding s dim
    if rows.length < 2 then (0, 0)
    else
      let divs := lyapunovDivergences logdiv rows
      if divs.length = 0 then (0, 0)
      else
        let lyap := listMean divs
        let conf0 := min 1 ((divs.length : ℚ) / 30)
        let conf :=
          if 5 < divs.length then conf0 * (1 / (1 + sqrtQ (listVar divs)))
          else conf0
        (clampQ (-2) 2 lyap, conf)

/-- `_compute_divergence_rate`: relative drift of the last-10 mean from the
baseline mean, floored at 0. -/
def computeDivergenceRate (s : List ℚ) : ℚ :=
  if s.length < 10 then 0
  else
    let baseline := listMean (s.take (min 10 (s.length / 3)))
    let current := listMean (s.drop (s.length - 10))
    max 0 ((current - baseline) / (baseline + 1/100))

/-- `_compute_suspicion_level`. -/
def computeSuspicionLevel (lyap fb div : ℚ) : ℚ :=
  let lyapScore := clampQ 0 1 ((lyap + 1) / 2)
  let divScore := min 1 (div / 2)
  (4/10) * lyapScore + (4/10) * fb + (1/5) * divScore

/-- State of `Phase3ChaosKernel`: the two parallel capacity-120 history rings
(the deque of dicts split into its `risk_score` and `temporal_trend`
columns) and the constructor thresholds. -/
structure ChaosKernel where
  lyapunov_threshold : ℚ
  min_window_size : ℕ
  max_window_size : ℕ
  embedding_dimension : ℕ
  risk_history : List ℚ
  trend_history : List ℚ
  deriving Repr, DecidableEq

/-- `Phase3ChaosKernel()` with the default constructor arguments. -/
def ChaosKernel.init : ChaosKernel :=
  { lyapunov_threshold := 0, min_window_size := 40, max_window_size := 120,
    embedding_dimension := 3, risk_history := [], trend_history := [] }

/-- `Phase3ChaosKernel.update`: push the sample, neutral result below the
minimum window, else Lyapunov estimate, positive feedback, divergence,
suspicion, and the instability decision
`lyapunov > threshold and positive_feedback > 0.5 and confidence > 0.6`.
`pf` abstracts `_detect_positive_feedback`, whose value mixes a Pearson
correlation (NaN on constant input) and float polynomial fits; every theorem
below quantifies over `pf` universally. -/
def ChaosKernel.update (logdiv : ℚ → ℚ → ℚ) (sqrtQ : ℚ → ℚ)
    (pf : List ℚ → List ℚ → ℚ) (k : ChaosKernel)
    (risk_score temporal_trend : ℚ) : ChaosKernel × ChaosAnalysisResult :=
  let k := { k with
    risk_history := pushCap k.max_window_size k.risk_history risk_score
    trend_history := pushCap k.max_window_size k.trend_history temporal_trend }
  if k.risk_history.length < k.min_window_size then
    (k, { lyapunov_exponent := 0, is_unstable := false, positive_feedback := 0,
          suspicion_level := 0, confidence := 0,
          window_size := k.risk_history.length, divergence_rate := 0 })
  else
    let lc := computeLyapunovExponent logdiv sqrtQ k.min_window_size
      k.embedding_dimension k.risk_history
    let fb := pf k.risk_history k.trend_history
    let div := computeDivergenceRate k.risk_history
    let susp := computeSuspicionLevel lc.1 fb div
    let unstable :=
      decide (k.lyapunov_threshold < lc.1) && decide (1/2 < fb) && decide (3/5 < lc.2)
    (k, { lyapunov_exponent := lc.1, is_unstable := unstable,
          positive_feedback := fb, suspicion_level := susp, confidence := lc.2,
          window_size := k.risk_history.length, divergence_rate := div })

-- ═══════════════════════════════════════════════════════════════════════════
-- Phase-6 communication layer
-- (src/phases/phase6_communication/communication_layer.py)
-- ═══════════════════════════════════════════════════════════════════════════

/-- A `FireAlert`.  `priority` is the `AlertPriority` value (1, 2 or 3),
`channel` the `NetworkChannel` value string; `dying_gasp` and
`fallback_lora` are the corresponding metadata entries (absent reads as
`false`).  Location and timestamps carry no decision logic and are omitted. -/
structure FireAlert where
  alert_id : String
  priority : ℕ
  node_id : String
  risk_score : ℚ
  confidence : ℚ
  witnesses : ℕ
  channel : String
  dying_gasp : Bool
  fallback_lora : Bool
  deriving Repr, DecidableEq

/-- `Phase6CommunicationLayer.stats` counters the alert paths touch. -/
structure CommStats where
  p1_alerts : ℕ
  p2_alerts : ℕ
  p3_alerts : ℕ
  satellite_transmissions : ℕ
  mesh_broadcasts : ℕ
  deriving Repr, DecidableEq

/-- State of `Phase6CommunicationLayer`.  `trauma_decay_days` is the
constructor argument (`trauma_decay_rate = 1.0 / trauma_decay_days`);
`death_count` counts `death_events` (their contents feed only the death-vector
analysis, outside the claims here). -/
structure CommLayer where
  node_id : String
  dying_gasp_temp_threshold : ℚ
  trauma_decay_days : ℚ
  global_trauma_level : ℚ
  last_trauma_decay : ℚ
  alert_counter : ℕ
  alerts_sent : List FireAlert
  death_count : ℕ
  stats : CommStats
  deriving Repr, DecidableEq

/-- `Phase6CommunicationLayer(node_id, location)` with default arguments,
clock at `now`. -/
def CommLayer.init (node_id : String) (now : ℚ) : CommLayer :=
  { node_id := node_id, dying_gasp_temp_threshold := 100,
    trauma_decay_days := 7, global_trauma_level := 0, last_trauma_decay := now,
    alert_counter := 0, alerts_sent := [], death_count := 0,
    stats := ⟨0, 0, 0, 0, 0⟩ }

/-- `Phase6CommunicationLayer._decay_trauma`: after at least one elapsed day,
`global_trauma_level = max(0, level - (1/trauma_decay_days) * days)`. -/
def CommLayer.decay_trauma (c : CommLayer) (now : ℚ) : CommLayer :=
  let days := (now - c.last_trauma_decay) / 86400
  if 1 ≤ days then
    { c with
      global_trauma_level :=
        max 0 (c.global_trauma_level - 1 / c.trauma_decay_days * days)
      last_trauma_decay := now }
  else c

/-- `_determine_priority`: P1 for risk, confidence above 0.80 with a witness;
P2 for risk and confidence above 0.60; otherwise P3 (the final two source
branches, `battery < 20 or risk < 0.30` and the fallthrough, both return
`P3_MAINTENANCE`). -/
def CommLayer.determine_priority (risk confidence : ℚ) (witnesses : ℕ)
    (_battery : ℚ) : ℕ :=
  if 8/10 < risk ∧ 8/10 < confidence ∧ 1 ≤ witnesses then 1
  else if 6/10 < risk ∧ 6/10 < confidence then 2
  else 3

/-- `_route_p1_critical`: satellite alert (the simulated
`_transmit_satellite` always returns `True`, so the LoRa fallback branch is
dead in the source as shipped), trauma raised by 0.3, alert recorded. -/
def CommLayer.route_p1_critical (c : CommLayer) (risk confidence : ℚ)
    (witnesses : ℕ) : CommLayer × FireAlert :=
  let counter := c.alert_counter + 1
  let alert : FireAlert :=
    { alert_id := c.node_id ++ "_P1_" ++ toString counter, priority := 1,
      node_id := c.node_id, risk_score := risk, confidence := confidence,
      witnesses := witnesses, channel := "satellite", dying_gasp := false,
      fallback_lora := false }
  ({ c with
      alert_counter := counter
      global_trauma_level := min 1 (c.global_trauma_level + 3/10)
      alerts_sent := c.alerts_sent ++ [alert]
      stats := { c.stats with
        p1_alerts := c.stats.p1_alerts + 1
        satellite_transmissions := c.stats.satellite_transmissions + 1 } },
   alert)

/-- `_route_p2_medium`: LoRa mesh broadcast, trauma raised by 0.15. -/
def CommLayer.route_p2_medium (c : CommLayer) (risk confidence : ℚ)
    (witnesses : ℕ) : CommLayer × FireAlert :=
  let counter := c.alert_counter + 1
  let alert : FireAlert :=
    { alert_id := c.node_id ++ "_P2_" ++ toString counter, priority := 2,
      node_id := c.node_id, risk_score := risk, confidence := confidence,
      witnesses := witnesses, channel := "lora_mesh", dying_gasp := false,
      fallback_lora := false }
  ({ c with
      alert_counter := counter
      global_trauma_level := min 1 (c.global_trauma_level + 15/100)
      alerts_sent := c.alerts_sent ++ [alert]
      stats := { c.stats with
        p2_alerts := c.stats.p2_alerts + 1
        mesh_broadcasts := c.stats.mesh_broadcasts + 1 } },
   alert)

/-- `_route_p3_maintenance`: a LoRa-only maintenance ticket with
`risk_score = 0.0`, `confidence = 1.0`. -/
def CommLayer.route_p3_maintenance (c : CommLayer) (_battery : ℚ) :
    CommLayer × FireAlert :=
  let counter := c.alert_counter + 1
  let alert : FireAlert :=
    { alert_id := c.node_id ++ "_P3_" ++ toString counter, priority := 3,
      node_id := c.node_id, risk_score := 0, confidence := 1,
      witnesses := 0, channel := "lora_mesh", dying_gasp := false,
      fallback_lora := false }
  ({ c with
      alert_counter := counter
      alerts_sent := c.alerts_sent ++ [alert]
      stats := { c.stats with p3_alerts := c.stats.p3_alerts + 1 } },
   alert)

/-- `_execute_dying_gasp`: emergency P1 satellite alert carrying the black box
(`dying_gasp = True`), a recorded death event; note the source updates neither
`alerts_sent` nor the `p1_alerts`/`satellite_transmissions` counters here. -/
def CommLayer.execute_dying_gasp (c : CommLayer) (risk confidence : ℚ) :
    CommLayer × FireAlert :=
  let counter := c.alert_counter + 1
  let alert : FireAlert :=
    { alert_id := c.node_id ++ "_DYING_GASP_" ++ toString counter, priority := 1,
      node_id := c.node_id, risk_score := risk, confidence := confidence,
      witnesses := 0, channel := "satellite", dying_gasp := true,
      fallback_lora := false }
  ({ c with alert_counter := counter, death_count := c.death_count + 1 }, alert)

/-- `Phase6CommunicationLayer.process_alert`: decay trauma, dying gasp when
the node temperature exceeds the threshold, else route by priority.  The
`should_alert` parameter is received but never consulted by the source; it is
kept here with the same (lack of) effect. -/
def CommLayer.process_alert (c : CommLayer) (risk confidence : ℚ)
    (should_alert : Bool) (witnesses : ℕ) (node_temperature battery_level : ℚ)
    (now : ℚ) : CommLayer × Option FireAlert :=
  let _ := should_alert
  let c := c.decay_trauma now
  if c.dying_gasp_temp_threshold < node_temperature then
    let ca := c.execute_dying_gasp risk confidence
    (ca.1, some ca.2)
  else
    match CommLayer.determine_priority risk confidence witnesses battery_level with
    | 1 =>
        let ca := c.route_p1_critical risk confidence witnesses
        (ca.1, some ca.2)
    | 2 =>
        let ca := c.route_p2_medium risk confidence witnesses
        (ca.1, some ca.2)
    | _ =>
        let ca := c.route_p3_maintenance battery_level
        (ca.1, some ca.2)

-- ═══════════════════════════════════════════════════════════════════════════
-- The Hive: mesh network (class MeshNetwork)
-- ═══════════════════════════════════════════════════════════════════════════

/-- A registered mesh node (the per-node dict of `MeshNetwork.nodes`).
`queen_id` is the optional top-level `queen_id` key (set only by the server
surface; `register_node` itself leaves it absent). -/
structure MeshNode where
  role : String
  location : ℚ × ℚ
  queen_id : Option String
  status : String
  last_heartbeat : ℚ
  alerts_sent : ℕ
  battery_level : ℚ
  risk_score : ℚ
  deriving Repr, DecidableEq, Inhabited

/-- `MeshNetwork.stats`. -/
structure MeshStats where
  messages_routed : ℕ
  drone_to_queen : ℕ
  queen_to_satellite : ℕ
  heartbeats_received : ℕ
  alerts_aggregated : ℕ
  relay_hops_total : ℕ
  deriving Repr, DecidableEq

/-- A `MeshMessage` (the payload dict carries no routing logic and is
omitted; `timestamp` is always set by `route_message`). -/
structure MeshMessage where
  message_id : String
  source_node_id : String
  destination_node_id : String
  message_type : String
  hop_count : ℕ
  relay_path : List String
  deriving Repr, DecidableEq

/-- State of `MeshNetwork`.  Locations are opaque coordinate pairs; the
Haversine `distance_to` is transcendental and is abstracted as the `dist`
parameter of the routing functions, universally quantified in every theorem. -/
structure MeshNetwork where
  lora_range_meters : ℚ
  nodes : List (String × MeshNode)
  queen_node_id : Option String
  queen_node_ids : List String
  message_log : List MeshMessage
  stats : MeshStats
  deriving Repr, DecidableEq

/-- `MeshNetwork(lora_range_meters=2000.0)`. -/
def MeshNetwork.init : MeshNetwork :=
  { lora_range_meters := 2000, nodes := [], queen_node_id := none,
    queen_node_ids := [], message_log := [], stats := ⟨0, 0, 0, 0, 0, 0⟩ }

/-- `MeshNetwork.register_node` (clock at `now`). -/
def MeshNetwork.register_node (net : MeshNetwork) (node_id role : String)
    (loc : ℚ × ℚ) (now : ℚ) : MeshNetwork :=
  let node : MeshNode :=
    { role := role, location := loc, queen_id := none, status := "ONLINE",
      last_heartbeat := now, alerts_sent := 0, battery_level := 100,
      risk_score := 0 }
  let net := { net with nodes := alistSet node_id node net.nodes }
  if role = "QUEEN" then
    { net with
      queen_node_id :=
        match net.queen_node_id with
        | none => some node_id
        | some q => some q
      queen_node_ids :=
        if node_id ∈ net.queen_node_ids then net.queen_node_ids
        else net.queen_node_ids ++ [node_id] }
  else net

/-- `MeshNetwork._log_message`: append, dropping the oldest entry above the
cap of 200. -/
def MeshNetwork.log_message (net : MeshNetwork) (msg : MeshMessage) : MeshNetwork :=
  let log := net.message_log ++ [msg]
  { net with message_log := if 200 < log.length then log.drop 1 else log }

/-- `MeshNetwork._find_relay_node`: among online nodes other than source and
queen, the one within LoRa range of both with the smallest combined distance
(first wins on ties, like the strict `<` over dict iteration order). -/
def MeshNetwork.find_relay_node (dist : ℚ × ℚ → ℚ × ℚ → ℚ) (net : MeshNetwork)
    (source_id : String) (target_queen : Option String) : Option String :=
  let queen_id :=
    match target_queen with
    | some q => some q
    | none => net.queen_node_id
  match queen_id with
  | none => none
  | some qid =>
      let source_loc :=
        ((alistGet source_id net.nodes).getD default).location
      let queen_loc := ((alistGet qid net.nodes).getD default).location
      let best := net.nodes.foldl
        (fun (best : Option (String × ℚ)) p =>
          let nid := p.1
          let node := p.2
          if nid = source_id ∨ nid = qid then best
          else if node.status ≠ "ONLINE" then best
          else
            let ds := dist node.location source_loc
            let dq := dist node.location queen_loc
            if ds ≤ net.lora_range_meters ∧ dq ≤ net.lora_range_meters then
              let total := ds + dq
              match best with
              | none => some (nid, total)
              | some b => if total < b.2 then some (nid, total) else best
            else best)
        none
      best.map (·.1)

/-- `MeshNetwork._route_drone_to_queen`: resolve the target Queen (message
destination when registered, else the drone's `queen_id`, else the primary
Queen), link directly within LoRa range, else through the best relay, else
fall back to an assumed direct hop; update stats, heartbeat bookkeeping,
message log and the source's `alerts_sent`. -/
def MeshNetwork.route_drone_to_queen (dist : ℚ × ℚ → ℚ × ℚ → ℚ)
    (net : MeshNetwork) (msg : MeshMessage) (now : ℚ) :
    MeshNetwork × MeshMessage × Bool :=
  let target :=
    if msg.destination_node_id = "" ∨
        (alistGet msg.destination_node_id net.nodes).isNone then
      match alistGet msg.source_node_id net.nodes with
      | some dn =>
          match dn.queen_id with
          | some q => some q
          | none => net.queen_node_id
      | none => net.queen_node_id
    else some msg.destination_node_id
  match target with
  | none => (net, msg, false)
  | some tq =>
      match alistGet tq net.nodes with
      | none => (net, msg, false)
      | some queen =>
          let source := (alistGet msg.source_node_id net.nodes).getD default
          let msg :=
            if dist source.location queen.location ≤ net.lora_range_meters then
              { msg with
                destination_node_id := tq
                hop_count := msg.hop_count + 1
                relay_path := msg.relay_path ++ [tq] }
            else
              match net.find_relay_node dist msg.source_node_id (some tq) with
              | some relay =>
                  { msg with
                    hop_count := msg.hop_count + 2
                    relay_path := msg.relay_path ++ [relay, tq] }
              | none =>
                  { msg with
                    hop_count := msg.hop_count + 1
                    relay_path := msg.relay_path ++ [tq] }
          let net := { net with stats := { net.stats with
            messages_routed := net.stats.messages_routed + 1
            drone_to_queen := net.stats.drone_to_queen + 1
            relay_hops_total := net.stats.relay_hops_total + msg.hop_count } }
          let net :=
            if msg.message_type = "heartbeat" then
              let net := { net with stats := { net.stats with
                heartbeats_received := net.stats.heartbeats_received + 1 } }
              match alistGet msg.source_node_id net.nodes with
              | some sn =>
                  let sn := { sn with last_heartbeat := now }
                  { net with nodes := alistSet msg.source_node_id sn net.nodes }
              | none => net
            else net
          let net := net.log_message msg
          let net :=
            match alistGet msg.source_node_id net.nodes with
            | some sn =>
                let sn := { sn with alerts_sent := sn.alerts_sent + 1 }
                { net with nodes := alistSet msg.source_node_id sn net.nodes }
            | none => net
          (net, msg, true)

/-- `MeshNetwork._route_queen_uplink`: hop to the satellite, retag as
`satellite_uplink`, update stats and the log. -/
def MeshNetwork.route_queen_uplink (net : MeshNetwork) (msg : MeshMessage) :
    MeshNetwork × MeshMessage × Bool :=
  let msg := { msg with
    hop_count := msg.hop_count + 1
    relay_path := msg.relay_path ++ ["SATELLITE"]
    message_type := "satellite_uplink" }
  let net := { net with stats := { net.stats with
    messages_routed := net.stats.messages_routed + 1
    queen_to_satellite := net.stats.queen_to_satellite + 1 } }
  (net.log_message msg, msg, true)

/-- `MeshNetwork.route_message`: record the source in the relay path, then
dispatch on the source node's role; unknown sources fail.  The message comes
in by value, as a freshly received copy. -/
def MeshNetwork.route_message (dist : ℚ × ℚ → ℚ × ℚ → ℚ) (net : MeshNetwork)
    (msg : MeshMessage) (now : ℚ) : MeshNetwork × MeshMessage × Bool :=
  let msg :=
    if msg.source_node_id ∈ msg.relay_path then msg
    else { msg with relay_path := msg.relay_path ++ [msg.source_node_id] }
  match alistGet msg.source_node_id net.nodes with
  | none => (net, msg, false)
  | some src =>
      if src.role = "DRONE" then net.route_drone_to_queen dist msg now
      else if src.role = "QUEEN" then net.route_queen_uplink msg
      else (net, msg, false)

-- ═══════════════════════════════════════════════════════════════════════════
-- The Hive: Queen aggregation
-- (class RoleAwareCommunicationLayer, method receive_drone_alert)
-- ═══════════════════════════════════════════════════════════════════════════

/-- One buffered Drone alert, as the Queen stores it (`source_node` resolved
through the source's `source_node`/`source` keys, `received_at` stamped on
arrival). -/
structure DroneAlertEntry where
  source_node : String
  priority : String
  risk_score : ℚ
  received_at : ℚ
  deriving Repr, DecidableEq

/-- The Queen-side aggregation state of `RoleAwareCommunicationLayer`. -/
structure QueenAgg where
  node_id : String
  role : String
  drone_alerts : List DroneAlertEntry
  aggregation_window_sec : ℚ
  escalation_threshold : ℕ
  message_counter : ℕ
  deriving Repr, DecidableEq

/-- A Queen with an empty buffer and the hard-coded window (300 s) and
escalation threshold (2). -/
def QueenAgg.init (node_id : String) : QueenAgg :=
  { node_id := node_id, role := "QUEEN", drone_alerts := [],
    aggregation_window_sec := 300, escalation_threshold := 2,
    message_counter := 0 }

/-- The result dictionary of `receive_drone_alert`, flattened: the consensus
return fills `source_drones`/`avg_risk`/`max_risk`, the relay return fills
`buffered_alerts` (each branch's absent keys are zeroed here and documented
in `receive_drone_alert`). -/
structure AggResult where
  escalated : Bool
  priority : String
  channel : String
  source_drones : List String
  avg_risk : ℚ
  max_risk : ℚ
  buffered_alerts : ℕ
  deriving Repr, DecidableEq

/-- `RoleAwareCommunicationLayer.receive_drone_alert` at wall-clock `now`:
non-Queens refuse; the alert is buffered and stale entries dropped; with at
least `escalation_threshold` buffered alerts of `risk_score > 0.6` the Queen
emits the multi-drone-consensus result (P1 critical, satellite channel,
deduplicated source list via `dedupFirst`, average and maximum risk) and clears
the buffer; otherwise it relays at the original priority over the LoRa
gateway.  (On escalation the source also routes the satellite `MeshMessage`
through the shared mesh and bumps its `alerts_aggregated` counter; those live
on the separate `MeshNetwork` state and are outside this record.) -/
def QueenAgg.receive_drone_alert (q : QueenAgg) (source priority : String)
    (risk : ℚ) (now : ℚ) : QueenAgg × Option AggResult :=
  if q.role ≠ "QUEEN" then (q, none)
  else
    let buf := q.drone_alerts ++
      [{ source_node := source, priority := priority, risk_score := risk,
         received_at := now }]
    let cutoff := now - q.aggregation_window_sec
    let buf := buf.filter fun a => decide (cutoff < a.received_at)
    let high := buf.filter fun a => decide (3/5 < a.risk_score)
    if q.escalation_threshold ≤ high.length then
      let sources := dedupFirst (high.map (·.source_node))
      ({ q with drone_alerts := [], message_counter := q.message_counter + 1 },
       some { escalated := true, priority := "P1_CRITICAL",
              channel := "SATELLITE", source_drones := sources,
              avg_risk := listMean (high.map (·.risk_score)),
              max_risk := listMax (high.map (·.risk_score)),
              buffered_alerts := 0 })
    else
      ({ q with drone_alerts := buf },
       some { escalated := false, priority := priority,
              channel := "LORA_GATEWAY", source_drones := [],
              avg_risk := 0, max_risk := 0, buffered_alerts := buf.length })

/-- The high-risk in-window alert list a Queen inspects after receiving an
alert: the buffer plus the new entry, restricted to the aggregation window
and to `risk_score > 0.6`.  Definitionally the list `receive_drone_alert`
computes; stated separately so the theorems can name it. -/
def QueenAgg.highRiskWindow (q : QueenAgg) (source priority : String)
    (risk now : ℚ) : List DroneAlertEntry :=
  ((q.drone_alerts ++
    ([{ source_node := source, priority := priority, risk_score := risk,
        received_at := now }] : List DroneAlertEntry)).filter
    (fun a => decide (now - q.aggregation_window_sec < a.received_at))).filter
    (fun a => decide (3/5 < a.risk_score))

-- ═══════════════════════════════════════════════════════════════════════════
-- Concrete scenarios used by the analyses below
-- ═══════════════════════════════════════════════════════════════════════════

/-- Dying-gasp scenario, step 1: a fresh watchdog accepts a normal 25 °C
reading from sensor TEMP_X (creating its state). -/
def c3Step1 : Watchdog × ValidationResult :=
  (Watchdog.init 0).validate (some ⟨"TEMP_X", 25, 0, "temperature"⟩)
    "TEMP_X" "temperature" [] 0

/-- Dying-gasp scenario, step 2: TEMP_X then reads 105 °C, above the 100 °C
`dying_gasp` threshold. -/
def c3Step2 : Watchdog × ValidationResult :=
  c3Step1.1.validate (some ⟨"TEMP_X", 105, 10, "temperature"⟩)
    "TEMP_X" "temperature" [] 10

/-- Dying-gasp scenario, step 3: TEMP_X later reads an ordinary in-range
50 °C. -/
def c3Step3 : Watchdog × ValidationResult :=
  c3Step2.1.validate (some ⟨"TEMP_X", 50, 20, "temperature"⟩)
    "TEMP_X" "temperature" [] 20

/-- The Phase-5 input exercising the structure term: structure detected with
Hurst exponent 0.3 (below 0.5), moderate Phase-0 risk, everything else
neutral. -/
def c5FailingInput : PhaseInputs :=
  { fire_risk_score := 1/2, cross_modal_agreement := 0,
    temporal_trend := "stable", persistence := 0, has_structure := true,
    hurst_exponent := 3/10, is_unstable := false, lyapunov_exponent := 0,
    vision_confidence := 0, camera_healthy := false, smoke_confidence := 0,
    trauma_level := 0 }

/-- Replay scenario: a mesh with one Queen and one co-located Drone. -/
def c8Net0 : MeshNetwork :=
  (MeshNetwork.init.register_node "Q1" "QUEEN" (0, 0) 0).register_node
    "D1" "DRONE" (0, 0) 0

/-- The Drone alert message whose replay is examined. -/
def c8Msg : MeshMessage :=
  { message_id := "D1_MESH_1", source_node_id := "D1",
    destination_node_id := "Q1", message_type := "alert", hop_count := 0,
    relay_path := [] }

/-- The distance oracle for co-located nodes: the Haversine distance between
identical coordinates is 0. -/
def c8Dist : ℚ × ℚ → ℚ × ℚ → ℚ := fun _ _ => 0

/-- The mesh after routing the alert once. -/
def c8Net1 : MeshNetwork := (MeshNetwork.route_message c8Dist c8Net0 c8Msg 0).1

/-- The mesh after routing a fresh copy of the same message (same
`message_id`) a second time. -/
def c8Net2 : MeshNetwork := (MeshNetwork.route_message c8Dist c8Net1 c8Msg 0).1

/-- Aggregation scenario, step 1: a Queen receives one high-risk alert
(risk 0.75) from DRONE_A. -/
def c2Step1 : QueenAgg × Option AggResult :=
  (QueenAgg.init "QUEEN_1").receive_drone_alert "DRONE_A" "P2_MEDIUM" (3/4) 0

/-- Aggregation scenario, step 2: the same Drone sends a second high-risk
alert 10 s later, inside the 5-minute window. -/
def c2Step2 : QueenAgg × Option AggResult :=
  c2Step1.1.receive_drone_alert "DRONE_A" "P2_MEDIUM" (3/4) 10

theorem TraumaSystem.register_le (t : TraumaSystem) (s : ℚ)
    (hs : 0 ≤ s) (hub : t.trauma_level ≤ 1) :
    t.trauma_level ≤ (t.register_trauma s).trauma_level := by
  simp only [register_trauma, le_min_iff]
  constructor
  · exact hub
  · nlinarith

theorem TraumaSystem.decay_le (t : TraumaSystem) (now : ℚ)
    (hlb : 0 ≤ t.trauma_level) :
    (t.apply_decay now).trauma_level ≤ t.trauma_level := by
  unfold apply_decay
  by_cases h : 1 ≤ (now - t.last_decay) / 86400
  · simp only [h, if_pos, max_le_iff]
    constructor
    · exact hlb
    · nlinarith
  · simp [h]

theorem TraumaSystem.step_bounds (t : TraumaSystem) (op : TraumaOp)
    (hop : op.validSeverity) (hlb : 0 ≤ t.trauma_level) (hub : t.trauma_level ≤ 1) :
    0 ≤ (t.step op).trauma_level ∧ (t.step op).trauma_level ≤ 1 := by
  cases op with
  | register s =>
      obtain ⟨hs0, _⟩ := hop
      constructor
      · calc (0:ℚ) ≤ t.trauma_level := hlb
          _ ≤ (t.register_trauma s).trauma_level := t.register_le s hs0 hub
      · simp [TraumaSystem.step, register_trauma]
  | decay now =>
      constructor
      · unfold TraumaSystem.step apply_decay
        by_cases h : 1 ≤ (now - t.last_decay) / 86400 <;> simp [h, hlb]
      · calc (t.step (.decay now)).trauma_level ≤ t.trauma_level :=
            t.decay_le now hlb
          _ ≤ 1 := hub

theorem TraumaSystem.run_bounds (ops : List TraumaOp)
    (hops : ∀ op ∈ ops, op.validSeverity) (t : TraumaSystem)
    (hlb : 0 ≤ t.trauma_level) (hub : t.trauma_level ≤ 1) :
    0 ≤ (t.run ops).trauma_level ∧ (t.run ops).trauma_level ≤ 1 := by
  induction ops generalizing t with
  | nil => exact ⟨hlb, hub⟩
  | cons op rest ih =>
      have hstep := t.step_bounds op (hops op (by simp)) hlb hub
      exact ih (fun o ho => hops o (by simp [ho])) (t.step op) hstep.1 hstep.2

/-- C6 counterexample: a watchdog trauma system at level 1 with `decay_days = 7`
decayed after exactly 2 elapsed days lands at `0.9` (rate `0.05`/day), not at
the claimed `max(0, 1 - (1/7)·2) = 5/7`. -/
theorem C6_counterexample :
    (TraumaSystem.apply_decay
        { trauma_level := 1, trauma_events := [], decay_days := 7, last_decay := 0 }
        172800).trauma_level = 9/10
    ∧ (9/10 : ℚ) ≠ max 0 (1 - 1/7 * 2) := by
  constructor
  · norm_num [TraumaSystem.apply_decay]
  · rw [show max (0 : ℚ) (1 - 1/7 * 2) = 5/7 by rw [max_eq_right] <;> norm_num]
    norm_num

/-- C6 amended: trauma decay is linear per elapsed day and clamped at 0, but
at two different rates: the communication layer's `_decay_trauma` decays at
`1/decay_days` per day (1/7 with the default), while the watchdog
`TraumaSystem.apply_decay` decays at the fixed rate `0.05` per day, ignoring
its `decay_days` parameter. -/
theorem C6_decay_linear_two_rates (t : TraumaSystem) (c : CommLayer) (now : ℚ)
    (ht : 1 ≤ (now - t.last_decay) / 86400)
    (hc : 1 ≤ (now - c.last_trauma_decay) / 86400) :
    (t.apply_decay now).trauma_level
      = max 0 (t.trauma_level - 5/100 * ((now - t.last_decay) / 86400))
    ∧ (c.decay_trauma now).global_trauma_level
      = max 0 (c.global_trauma_level
          - 1 / c.trauma_decay_days * ((now - c.last_trauma_decay) / 86400)) := by
  constructor
  · unfold TraumaSystem.apply_decay
    simp only [ht, if_pos]
  · unfold CommLayer.decay_trauma
    simp only [hc, if_pos]

/-- C6 amended, witness: both decay formulas evaluated after 2 elapsed days on
a level-1 trauma state. -/
theorem C6_decay_linear_two_rates_witness :
    (TraumaSystem.apply_decay
        { trauma_level := 1, trauma_events := [], decay_days := 7, last_decay := 0 }
        172800).trauma_level
      = max 0 (1 - 5/100 * (((172800 : ℚ) - 0) / 86400))
    ∧ ((CommLayer.init "N1" 0).decay_trauma 172800).global_trauma_level
      = max 0 (0 - 1 / (7 : ℚ) * (((172800 : ℚ) - 0) / 86400)) :=
  C6_decay_linear_two_rates
    { trauma_level := 1, trauma_events := [], decay_days := 7, last_decay := 0 }
    (CommLayer.init "N1" 0) 172800 (by norm_num) (by norm_num [CommLayer.init])

/-- C7: starting from a fresh trauma system, for every sequence of
`register_trauma` calls with severities in `[0, 1]` interleaved with
`apply_decay` calls, the trauma level lies in `[0, 1]` after every prefix of
the sequence; moreover every `register_trauma` call is non-decreasing and
every `apply_decay` call non-increasing on the level. -/
theorem C7_trauma_level_invariant (start : ℚ) (ops pre suf : List TraumaOp)
    (hops : ∀ op ∈ ops, op.validSeverity) (hsplit : ops = pre ++ suf) :
    (0 ≤ ((TraumaSystem.init start).run pre).trauma_level
      ∧ ((TraumaSystem.init start).run pre).trauma_level ≤ 1)
    ∧ (∀ (t : TraumaSystem) (sev : ℚ), 0 ≤ sev → t.trauma_level ≤ 1 →
        t.trauma_level ≤ (t.register_trauma sev).trauma_level)
    ∧ (∀ (t : TraumaSystem) (now : ℚ), 0 ≤ t.trauma_level →
        (t.apply_decay now).trauma_level ≤ t.trauma_level) := by
  refine ⟨?_, fun t sev h1 h2 => t.register_le sev h1 h2,
    fun t now h => t.decay_le now h⟩
  exact TraumaSystem.run_bounds pre
    (fun op hop => hops op (by simp [hsplit, hop]))
    (TraumaSystem.init start)
    (by simp [TraumaSystem.init])
    (by norm_num [TraumaSystem.init])

/-- C7 witness: the invariant at a concrete three-operation sequence (register
severity 0.5, decay two days later, register severity 1), evaluated after its
two-operation prefix. -/
theorem C7_trauma_level_invariant_witness :
    (0 ≤ ((TraumaSystem.init 0).run
        [TraumaOp.register (1/2), TraumaOp.decay 172800]).trauma_level
      ∧ ((TraumaSystem.init 0).run
        [TraumaOp.register (1/2), TraumaOp.decay 172800]).trauma_level ≤ 1)
    ∧ (∀ (t : TraumaSystem) (sev : ℚ), 0 ≤ sev → t.trauma_level ≤ 1 →
        t.trauma_level ≤ (t.register_trauma sev).trauma_level)
    ∧ (∀ (t : TraumaSystem) (now : ℚ), 0 ≤ t.trauma_level →
        (t.apply_decay now).trauma_level ≤ t.trauma_level) :=
  C7_trauma_level_invariant 0
    [TraumaOp.register (1/2), TraumaOp.decay 172800, TraumaOp.register 1]
    [TraumaOp.register (1/2), TraumaOp.decay 172800]
    [TraumaOp.register 1]
    (by intro op hop; fin_cases hop <;> norm_num [TraumaOp.validSeverity]) rfl

theorem makeFireDecision_eq_true (r a c : ℚ)
    (h : makeFireDecision r a c = true) :
    1/2 ≤ c ∧ (17/20 < r ∨ (7/10 < r ∧ 3/5 < a)) := by
  unfold makeFireDecision at h
  by_cases h1 : c < 1/2
  · rw [if_pos h1] at h
    exact Bool.noConfusion h
  · rw [if_neg h1] at h
    by_cases h2 : 17/20 < r
    · exact ⟨le_of_not_lt h1, Or.inl h2⟩
    · rw [if_neg h2] at h
      by_cases h3 : 7/10 < r ∧ 3/5 < a
      · exact ⟨le_of_not_lt h1, Or.inr h3⟩
      · rw [if_neg h3] at h
        exact Bool.noConfusion h

/-- C1: whenever `fuse` returns a state with `fire_detected = true`, the
state's overall confidence is at least 0.5 and one of the decision rules
holds on the state's own risk and agreement: risk above 0.85, or risk above
0.70 with cross-modal agreement above 0.6.  (This engine has no SSM override
path, so the claim's three-way disjunction holds a fortiori.) -/
theorem C1_fire_detected_implies_rules (cfg : FusionConfig)
    (chem : ChemicalState) (vis : VisualState) (env : EnvContext)
    (sensors : List ValidatedSensor) (last_risk : Option ℚ) (trauma : ℚ)
    (hfire : (fuse cfg chem vis env sensors last_risk trauma).fire_detected = true) :
    1/2 ≤ (fuse cfg chem vis env sensors last_risk trauma).overall_confidence
    ∧ (17/20 < (fuse cfg chem vis env sensors last_risk trauma).fire_risk_score
       ∨ (7/10 < (fuse cfg chem vis env sensors last_risk trauma).fire_risk_score
          ∧ 3/5 < (fuse cfg chem vis env sensors last_risk trauma).cross_modal_agreement)) := by
  have hd : (fuse cfg chem vis env sensors last_risk trauma).fire_detected
      = makeFireDecision (fuse cfg chem vis env sensors last_risk trauma).fire_risk_score
          (fuse cfg chem vis env sensors last_risk trauma).cross_modal_agreement
          (fuse cfg chem vis env sensors last_risk trauma).overall_confidence := rfl
  have h := makeFireDecision_eq_true _ _ _ (hd ▸ hfire)
  exact ⟨h.1, h.2⟩

/-- C1 witness: all three modalities saturated on one fully reliable sensor;
`fuse` detects fire, and the conclusion holds at that state. -/
theorem C1_fire_detected_implies_rules_witness :
    1/2 ≤ (fuse defaultFusionConfig ⟨1, 1, 1, false⟩ ⟨1, 1⟩ ⟨1, 1/2⟩
        [⟨true, 1, false⟩] none 0).overall_confidence
    ∧ (17/20 < (fuse defaultFusionConfig ⟨1, 1, 1, false⟩ ⟨1, 1⟩ ⟨1, 1/2⟩
          [⟨true, 1, false⟩] none 0).fire_risk_score
       ∨ (7/10 < (fuse defaultFusionConfig ⟨1, 1, 1, false⟩ ⟨1, 1⟩ ⟨1, 1/2⟩
            [⟨true, 1, false⟩] none 0).fire_risk_score
          ∧ 3/5 < (fuse defaultFusionConfig ⟨1, 1, 1, false⟩ ⟨1, 1⟩ ⟨1, 1/2⟩
            [⟨true, 1, false⟩] none 0).cross_modal_agreement)) :=
  C1_fire_detected_implies_rules defaultFusionConfig ⟨1, 1, 1, false⟩ ⟨1, 1⟩
    ⟨1, 1/2⟩ [⟨true, 1, false⟩] none 0
    (by norm_num [fuse, defaultFusionConfig, applyContextualModulation,
      computeCrossModalAgreement, computeOverallConfidence, computeFireRisk,
      detectDisagreements, makeFireDecision, mean3, mean2, var3, listMean,
      clampQ, List.filter])

/-- C5 (code bug): at the failing input (structure detected, Hurst 0.3) the
code's structure term is `0.15 * (0.3 - 0.5) = -0.03`, so the composite risk
is 0.17, strictly below the 0.20 of the identical input with the structure
term dropped — while the spec formula's term, with its `max(0, ·)`, is 0 and
would leave the risk at 0.20.  The source omits the lower clamp,
contradicting its own comments ("structure adds risk", "Normalize H to
[0, 1]"). -/
theorem C5_structure_term_goes_negative :
    computeRiskScore 0 c5FailingInput = 17/100
    ∧ computeRiskScore 0 { c5FailingInput with has_structure := false } = 1/5
    ∧ specStructureTerm c5FailingInput = 0
    ∧ computeRiskScore 0 c5FailingInput
        < computeRiskScore 0 { c5FailingInput with has_structure := false } := by
  norm_num [computeRiskScore, specStructureTerm, c5FailingInput, clampQ,
    eq_false (show ¬ ("stable" : String) = "rising" by decide)]

/-- C4 counterexample: a cycle whose decision has `should_alert = false` and
no dying-gasp condition (risk 0.1, confidence 0.5, temperature 25 °C, battery
15%) still makes `process_alert` emit an alert — a P3 maintenance
`FireAlert` — exactly the behaviour the repository's own phase-6 test
asserts. -/
theorem C4_counterexample :
    (((CommLayer.init "TEST_001" 0).process_alert (1/10) (1/2) false 0 25 15 0).2).isSome
      = true
    ∧ (((CommLayer.init "TEST_001" 0).process_alert
        (1/10) (1/2) false 0 25 15 0).2).map FireAlert.priority = some 3 := by
  norm_num [CommLayer.process_alert, CommLayer.init, CommLayer.decay_trauma,
    CommLayer.determine_priority, CommLayer.route_p3_maintenance]

/-- C4 amended: `process_alert` never consults `should_alert` — its result is
identical for any value of the flag — and it returns an alert on every call
(a P3 maintenance ticket when the risk/confidence rules do not classify
higher), so suppressing the alert on `should_alert = false` cycles does not
happen. -/
theorem C4_process_alert_ignores_should_alert (c : CommLayer) (risk conf : ℚ)
    (sa sa' : Bool) (wit : ℕ) (temp batt now : ℚ) :
    c.process_alert risk conf sa wit temp batt now
      = c.process_alert risk conf sa' wit temp batt now
    ∧ ((c.process_alert risk conf sa wit temp batt now).2).isSome = true := by
  constructor
  · rfl
  · by_cases h : (c.decay_trauma now).dying_gasp_temp_threshold < temp <;>
      simp only [CommLayer.process_alert, CommLayer.determine_priority, h,
        if_true, if_false, ite_true, ite_false] <;>
      first
        | simp
        | (split_ifs <;> simp)

/-- C2 counterexample: a single Drone (DRONE_A) sends two high-risk alerts
(risk 0.75) 10 s apart.  The first does not escalate, but the second does —
with only one distinct source Drone — because the Queen counts buffered
high-risk alerts, not distinct Drones. -/
theorem C2_counterexample :
    c2Step1.2.map AggResult.escalated = some false
    ∧ c2Step2.2.map AggResult.escalated = some true
    ∧ c2Step2.2.map AggResult.source_drones = some ["DRONE_A"] := by
  norm_num [c2Step1, c2Step2, QueenAgg.receive_drone_alert, QueenAgg.init,
    listMean, listMax, dedupFirst, List.filter]

/-- C2 amended: a Queen's `receive_drone_alert` escalates exactly when, after
buffering the new alert and dropping entries older than the 5-minute window,
at least `escalation_threshold` (2) buffered alerts have `risk_score > 0.6` —
regardless of whether they come from distinct Drones; the escalated result is
P1 Critical on the satellite channel and carries the deduplicated source-drone
list, the average risk and the maximum risk of those alerts. -/
theorem C2_escalation_counts_alerts_not_drones (q : QueenAgg)
    (source priority : String) (risk now : ℚ) (res : AggResult)
    (hrole : q.role = "QUEEN")
    (hres : (q.receive_drone_alert source priority risk now).2 = some res) :
    (res.escalated = true ↔
      q.escalation_threshold ≤ (q.highRiskWindow source priority risk now).length)
    ∧ (res.escalated = true →
        res.priority = "P1_CRITICAL" ∧ res.channel = "SATELLITE"
        ∧ res.source_drones = dedupFirst
            ((q.highRiskWindow source priority risk now).map DroneAlertEntry.source_node)
        ∧ res.avg_risk = listMean
            ((q.highRiskWindow source priority risk now).map DroneAlertEntry.risk_score)
        ∧ res.max_risk = listMax
            ((q.highRiskWindow source priority risk now).map DroneAlertEntry.risk_score)) := by
  unfold QueenAgg.receive_drone_alert at hres
  rw [if_neg (by simp [hrole])] at hres
  simp only [] at hres
  split at hres
  next hth =>
    simp only [Option.some.injEq] at hres
    subst hres
    constructor
    · simpa [QueenAgg.highRiskWindow] using hth
    · intro _
      refine ⟨rfl, rfl, rfl, rfl, rfl⟩
  next hth =>
    simp only [Option.some.injEq] at hres
    subst hres
    constructor
    · simpa [QueenAgg.highRiskWindow] using hth
    · intro h
      exact Bool.noConfusion h

/-- C2 amended, witness: the theorem applied at the second call of the
two-alert single-Drone scenario, where escalation fires with source list
`["DRONE_A"]` and both risk aggregates 0.75. -/
theorem C2_escalation_counts_alerts_not_drones_witness :
    ((true : Bool) = true ↔
      c2Step1.1.escalation_threshold ≤
        (c2Step1.1.highRiskWindow "DRONE_A" "P2_MEDIUM" (3/4) 10).length)
    ∧ ((true : Bool) = true →
        ("P1_CRITICAL" : String) = "P1_CRITICAL" ∧ ("SATELLITE" : String) = "SATELLITE"
        ∧ ["DRONE_A"] = dedupFirst
            ((c2Step1.1.highRiskWindow "DRONE_A" "P2_MEDIUM" (3/4) 10).map
              DroneAlertEntry.source_node)
        ∧ (3/4 : ℚ) = listMean
            ((c2Step1.1.highRiskWindow "DRONE_A" "P2_MEDIUM" (3/4) 10).map
              DroneAlertEntry.risk_score)
        ∧ (3/4 : ℚ) = listMax
            ((c2Step1.1.highRiskWindow "DRONE_A" "P2_MEDIUM" (3/4) 10).map
              DroneAlertEntry.risk_score)) :=
  C2_escalation_counts_alerts_not_drones c2Step1.1 "DRONE_A" "P2_MEDIUM"
    (3/4) 10
    { escalated := true, priority := "P1_CRITICAL", channel := "SATELLITE",
      source_drones := ["DRONE_A"], avg_risk := 3/4, max_risk := 3/4,
      buffered_alerts := 0 }
    (by norm_num [c2Step1, QueenAgg.receive_drone_alert, QueenAgg.init])
    (by norm_num [c2Step1, QueenAgg.receive_drone_alert, QueenAgg.init,
      listMean, listMax, dedupFirst, List.filter])

theorem Watchdog.apply_trauma_context_is_valid (w : Watchdog)
    (res : ValidationResult) (now : ℚ) :
    ((w.apply_trauma_context res now).2).is_valid = res.is_valid := by
  unfold Watchdog.apply_trauma_context
  simp only []
  split <;> rfl

theorem TraumaSystem.apply_decay_of_zero (t : TraumaSystem) (now : ℚ)
    (h : t.trauma_level = 0) : (t.apply_decay now).trauma_level = 0 := by
  unfold TraumaSystem.apply_decay
  simp only []
  split
  next hd =>
    simp only [h]
    rw [max_eq_left]
    nlinarith
  next hd => exact h

theorem Watchdog.check_range_pass (w : Watchdog) (r : SensorReading)
    (hrange : ((alistGet r.sensor_type w.sensor_ranges).all fun cfg =>
        decide (cfg.rmin ≤ r.value) && decide (r.value ≤ cfg.rmax) &&
        cfg.dying_gasp.all fun g => decide (r.value < g)) = true) :
    w.check_range r = (w, true, none) := by
  unfold Watchdog.check_range
  cases halist : alistGet r.sensor_type w.sensor_ranges with
  | none => rfl
  | some cfg =>
      rw [halist] at hrange
      simp only [Option.all_some, Bool.and_eq_true, decide_eq_true_eq] at hrange
      obtain ⟨⟨hmin, hmax⟩, hgasp⟩ := hrange
      have hbounds : ¬(r.value < cfg.rmin ∨ cfg.rmax < r.value) := by
        push_neg
        exact ⟨hmin, hmax⟩
      simp only []
      cases hdg : cfg.dying_gasp with
      | none => simp only [hdg, if_neg hbounds]
      | some g =>
          rw [hdg] at hgasp
          simp only [Option.all_some, decide_eq_true_eq] at hgasp
          simp only [hdg, if_neg (not_le.mpr hgasp), if_neg hbounds]

/-- C3 counterexample: sensor TEMP_X sends a normal 25 °C reading, then a
105 °C dying-gasp reading — which is rejected and marks the sensor broken —
and then an ordinary 50 °C reading, which `validate` accepts as valid even
though the sensor is marked broken. -/
theorem C3_counterexample :
    c3Step2.2.is_valid = false
    ∧ (alistGet "TEMP_X" c3Step2.1.sensor_states).map SensorState.is_broken
        = some true
    ∧ c3Step3.2.is_valid = true := by
  norm_num [c3Step1, c3Step2, c3Step3, Watchdog.init, Watchdog.validate,
    Watchdog.bumpProcessed,
    Watchdog.check_range, Watchdog.check_frozen, Watchdog.trigger_dying_gasp,
    Watchdog.update_sensor_state, Watchdog.apply_trauma_context,
    TraumaSystem.init, TraumaSystem.register_trauma, TraumaSystem.apply_decay,
    defaultSensorRanges, alistGet, alistSet, SensorState.init, pushCap]

/-- C3 amended: the dying-gasp protocol marks the sensor's state broken (when
the sensor has state) and rejects the triggering reading, but `validate`
never consults the broken flag: a later reading from the same sensor that
passes the range check and whose value differs from the stored last value is
accepted as valid. -/
theorem C3_broken_sensor_still_accepted (w : Watchdog) (r : SensorReading)
    (now : ℚ) (st : SensorState)
    (hst : alistGet r.sensor_id w.sensor_states = some st)
    (hbroken : st.is_broken = true)
    (hrange : ((alistGet r.sensor_type w.sensor_ranges).all fun cfg =>
        decide (cfg.rmin ≤ r.value) && decide (r.value ≤ cfg.rmax) &&
        cfg.dying_gasp.all fun g => decide (r.value < g)) = true)
    (hchanged : st.last_value ≠ some r.value) :
    ((w.validate (some r) r.sensor_id r.sensor_type [] now).2).is_valid = true := by
  have hcf : (w.bumpProcessed).check_frozen r
      = ({ w.bumpProcessed with
            sensor_states := alistSet r.sensor_id
              { st with frozen_since := (none : Option ℚ) }
              (w.bumpProcessed).sensor_states },
         true, none) := by
    unfold Watchdog.check_frozen
    rw [show alistGet r.sensor_id (w.bumpProcessed).sensor_states = some st from hst]
    simp only [if_neg hchanged]
  unfold Watchdog.validate
  simp only []
  rw [Watchdog.check_range_pass w.bumpProcessed r hrange]
  simp only []
  rw [hcf]
  exact Watchdog.apply_trauma_context_is_valid _ _ _

/-- C3 amended, witness: the reachable broken state of the dying-gasp
scenario (TEMP_X broken after the 105 °C reading), followed by the concrete
in-range 50 °C reading, is accepted. -/
theorem C3_broken_sensor_still_accepted_witness :
    ((c3Step2.1.validate (some ⟨"TEMP_X", 50, 20, "temperature"⟩)
        "TEMP_X" "temperature" [] 20).2).is_valid = true :=
  C3_broken_sensor_still_accepted c3Step2.1 ⟨"TEMP_X", 50, 20, "temperature"⟩ 20
    { sensor_id := "TEMP_X", last_value := some 25, last_timestamp := some 0,
      value_history := [25], timestamp_history := [0], frozen_since := none,
      is_broken := true, failure_count := 0 }
    (by norm_num [c3Step1, c3Step2, Watchdog.init, Watchdog.validate,
      Watchdog.bumpProcessed, Watchdog.check_range, Watchdog.check_frozen,
      Watchdog.trigger_dying_gasp, Watchdog.update_sensor_state,
      Watchdog.apply_trauma_context, TraumaSystem.init,
      TraumaSystem.register_trauma, TraumaSystem.apply_decay,
      defaultSensorRanges, alistGet, alistSet, SensorState.init, pushCap])
    rfl
    (by norm_num [alistGet, defaultSensorRanges, c3Step1, c3Step2,
      Watchdog.init, Watchdog.validate, Watchdog.bumpProcessed,
      Watchdog.check_range, Watchdog.check_frozen, Watchdog.trigger_dying_gasp,
      Watchdog.update_sensor_state, Watchdog.apply_trauma_context,
      TraumaSystem.init, TraumaSystem.register_trauma, TraumaSystem.apply_decay,
      SensorState.init, pushCap])
    (by norm_num [c3Step1, c3Step2, Watchdog.init, Watchdog.validate,
      Watchdog.bumpProcessed, Watchdog.check_range, Watchdog.check_frozen,
      Watchdog.trigger_dying_gasp, Watchdog.update_sensor_state,
      Watchdog.apply_trauma_context, TraumaSystem.init,
      TraumaSystem.register_trauma, TraumaSystem.apply_decay,
      defaultSensorRanges, alistGet, alistSet, SensorState.init, pushCap])

/-- C10: a reading whose `sensor_type` has no entry in `sensor_ranges` passes
the range check unchanged no matter how extreme its value; on a fresh sensor,
`validate` accepts it, the dying-gasp counter is untouched (the protocol
cannot trigger for such a kind), and with zero trauma the reliability is
exactly 1. -/
theorem C10_unknown_sensor_kind_accepted (w : Watchdog) (r : SensorReading)
    (now : ℚ)
    (htype : alistGet r.sensor_type w.sensor_ranges = none)
    (hfresh : alistGet r.sensor_id w.sensor_states = none) :
    w.check_range r = (w, true, none)
    ∧ ((w.validate (some r) r.sensor_id r.sensor_type [] now).2).is_valid = true
    ∧ ((w.validate (some r) r.sensor_id r.sensor_type [] now).1).stats.dying_gasps
        = w.stats.dying_gasps
    ∧ (w.trauma_system.trauma_level = 0 →
        ((w.validate (some r) r.sensor_id r.sensor_type [] now).2).reliability_score
          = 1) := by
  have hcr0 : w.check_range r = (w, true, none) := by
    unfold Watchdog.check_range
    rw [htype]
  have hcr : (w.bumpProcessed).check_range r = (w.bumpProcessed, true, none) := by
    unfold Watchdog.check_range
    rw [show alistGet r.sensor_type (w.bumpProcessed).sensor_ranges = none from htype]
  have hcf : (w.bumpProcessed).check_frozen r
      = ({ w.bumpProcessed with
            sensor_states := alistSet r.sensor_id (SensorState.init r.sensor_id)
              (w.bumpProcessed).sensor_states },
         true, none) := by
    unfold Watchdog.check_frozen
    rw [show alistGet r.sensor_id (w.bumpProcessed).sensor_states = none from hfresh]
  refine ⟨hcr0, ?_, ?_, ?_⟩
  · unfold Watchdog.validate
    simp only []
    rw [hcr]
    simp only []
    rw [hcf]
    exact Watchdog.apply_trauma_context_is_valid _ _ _
  · unfold Watchdog.validate
    simp only []
    rw [hcr]
    simp only []
    rw [hcf]
    unfold Watchdog.apply_trauma_context
    simp only []
    split <;> rfl
  · intro htr
    unfold Watchdog.validate
    simp only []
    rw [hcr]
    simp only []
    rw [hcf]
    unfold Watchdog.apply_trauma_context
    simp only []
    split
    next hpos =>
      exfalso
      rw [TraumaSystem.apply_decay_of_zero] at hpos
      · exact lt_irrefl 0 hpos
      · exact htr
    next => rfl

/-- C10 witness: an extreme reading (value 10^6) of the unconfigured kind
"radiation" on a fresh watchdog: range check passes, validate accepts with
reliability 1, and the dying-gasp counter stays 0. -/
theorem C10_unknown_sensor_kind_accepted_witness :
    (Watchdog.init 0).check_range ⟨"RAD_1", 1000000, 5, "radiation"⟩
        = (Watchdog.init 0, true, none)
    ∧ (((Watchdog.init 0).validate (some ⟨"RAD_1", 1000000, 5, "radiation"⟩)
        "RAD_1" "radiation" [] 5).2).is_valid = true
    ∧ (((Watchdog.init 0).validate (some ⟨"RAD_1", 1000000, 5, "radiation"⟩)
        "RAD_1" "radiation" [] 5).1).stats.dying_gasps
        = (Watchdog.init 0).stats.dying_gasps
    ∧ ((Watchdog.init 0).trauma_system.trauma_level = 0 →
        (((Watchdog.init 0).validate (some ⟨"RAD_1", 1000000, 5, "radiation"⟩)
          "RAD_1" "radiation" [] 5).2).reliability_score = 1) :=
  C10_unknown_sensor_kind_accepted (Watchdog.init 0)
    ⟨"RAD_1", 1000000, 5, "radiation"⟩ 5
    (by decide)
    rfl

/-- C8 counterexample: one Queen, one co-located Drone; routing the same
alert message (same `message_id`) twice leaves `messages_routed`,
`drone_to_queen` and `relay_hops_total` at 2, not at the value 1 they held
after the first call — `route_message` keeps no record of processed message
ids. -/
theorem C8_counterexample :
    c8Net1.stats.messages_routed = 1 ∧ c8Net2.stats.messages_routed = 2
    ∧ c8Net1.stats.drone_to_queen = 1 ∧ c8Net2.stats.drone_to_queen = 2
    ∧ c8Net1.stats.relay_hops_total = 1 ∧ c8Net2.stats.relay_hops_total = 2
    ∧ c8Net1.stats.heartbeats_received = c8Net2.stats.heartbeats_received
    ∧ c8Net1.stats.queen_to_satellite = c8Net2.stats.queen_to_satellite := by
  decide

theorem MeshNetwork.route_drone_messages_routed (dist : ℚ × ℚ → ℚ × ℚ → ℚ)
    (net : MeshNetwork) (msg : MeshMessage) (now : ℚ)
    (hok : (net.route_drone_to_queen dist msg now).2.2 = true) :
    ((net.route_drone_to_queen dist msg now).1).stats.messages_routed
      = net.stats.messages_routed + 1 := by
  unfold MeshNetwork.route_drone_to_queen at hok ⊢
  simp only [] at hok ⊢
  split
  next htq =>
    simp only [htq] at hok
    exact Bool.noConfusion hok
  next tq htq =>
    simp only [htq] at hok
    split
    next hq =>
      simp only [hq] at hok
      exact Bool.noConfusion hok
    next queen hq =>
      simp only [MeshNetwork.log_message]
      repeat' split
      all_goals rfl

theorem MeshNetwork.route_message_messages_routed (dist : ℚ × ℚ → ℚ × ℚ → ℚ)
    (net : MeshNetwork) (msg : MeshMessage) (now : ℚ)
    (hok : (net.route_message dist msg now).2.2 = true) :
    ((net.route_message dist msg now).1).stats.messages_routed
      = net.stats.messages_routed + 1 := by
  unfold MeshNetwork.route_message at hok ⊢
  simp only [] at hok ⊢
  split
  next hsrc =>
    simp only [hsrc] at hok
    exact Bool.noConfusion hok
  next src hsrc =>
    simp only [hsrc] at hok
    split
    next hrole =>
      rw [if_pos hrole] at hok
      exact MeshNetwork.route_drone_messages_routed dist net _ now hok
    next hrole =>
      rw [if_neg hrole] at hok
      split
      next hq =>
        simp only [MeshNetwork.route_queen_uplink, MeshNetwork.log_message]
      next hq =>
        rw [if_neg hq] at hok
        exact Bool.noConfusion hok

/-- C8 amended: `route_message` performs no deduplication by `message_id`:
every successful call increments `messages_routed` again, so replaying a
message with the same `message_id` leaves the counter at the first-call value
plus one more, rather than unchanged. -/
theorem C8_replay_increments_counters_again (dist : ℚ × ℚ → ℚ × ℚ → ℚ)
    (net : MeshNetwork) (msg : MeshMessage) (now now' : ℚ)
    (h1 : (net.route_message dist msg now).2.2 = true)
    (h2 : (((net.route_message dist msg now).1).route_message dist msg now').2.2
        = true) :
    ((((net.route_message dist msg now).1).route_message dist msg now').1).stats.messages_routed
      = net.stats.messages_routed + 2 := by
  rw [MeshNetwork.route_message_messages_routed dist _ msg now' h2,
    MeshNetwork.route_message_messages_routed dist net msg now h1]

/-- C8 amended, witness: the Queen-plus-Drone replay scenario, where the
counter lands at 2 after the second routing of the same message. -/
theorem C8_replay_increments_counters_again_witness :
    (((MeshNetwork.route_message c8Dist c8Net0 c8Msg 0).1.route_message
        c8Dist c8Msg 0).1).stats.messages_routed
      = c8Net0.stats.messages_routed + 2 :=
  C8_replay_increments_counters_again c8Dist c8Net0 c8Msg 0 0
    (by decide) (by decide)

theorem pushCap_replicate (cap n : ℕ) (c : ℚ) :
    pushCap cap (List.replicate n c) c = List.replicate (min (n + 1) cap) c := by
  unfold pushCap
  simp only [← List.replicate_succ', List.length_replicate, List.drop_replicate]
  congr 1
  omega

theorem distSq_self (a : List ℚ) : distSq a a = 0 := by
  induction a with
  | nil => rfl
  | cons x xs ih =>
      unfold distSq at ih ⊢
      simp [ih]

theorem timeDelayEmbedding_replicate (m dim : ℕ) (c : ℚ) (h : ¬ m + 1 ≤ dim) :
    timeDelayEmbedding (List.replicate m c) dim
      = List.replicate (m - (dim - 1)) (List.replicate dim c) := by
  unfold timeDelayEmbedding
  rw [List.length_replicate, if_neg h, List.eq_replicate_iff]
  constructor
  · simp
  · intro row hrow
    simp only [List.mem_map, List.mem_range] at hrow
    obtain ⟨r, hr, hrow⟩ := hrow
    subst hrow
    rw [List.eq_replicate_iff]
    refine ⟨by simp, ?_⟩
    intro b hb
    simp only [List.mem_map, List.mem_range] at hb
    obtain ⟨j, hj, hb⟩ := hb
    subst hb
    have hlt : r + j < m := by omega
    simp [List.getD, List.getElem?_replicate, hlt]

theorem lyapunovDivergences_replicate (logdiv : ℚ → ℚ → ℚ) (L dim : ℕ)
    (c : ℚ) :
    lyapunovDivergences logdiv (List.replicate L (List.replicate dim c)) = [] := by
  unfold lyapunovDivergences
  rw [List.filterMap_eq_nil_iff]
  intro i hi
  simp only [List.mem_range, List.length_replicate] at hi
  have h0 : (List.replicate L (List.replicate dim c)).getD i [] = List.replicate dim c := by
    simp [List.getD, List.getElem?_replicate, show i < L by omega]
  have h1 : (List.replicate L (List.replicate dim c)).getD (i + 1) []
      = List.replicate dim c := by
    simp [List.getD, List.getElem?_replicate, show i + 1 < L by omega]
  simp only [h0, h1, distSq_self]
  rw [if_neg (lt_irrefl 0)]

theorem computeLyapunovExponent_replicate (logdiv : ℚ → ℚ → ℚ) (sqrtQ : ℚ → ℚ)
    (min_window m : ℕ) (c : ℚ) (hm : ¬ m < min_window) :
    computeLyapunovExponent logdiv sqrtQ min_window 3 (List.replicate m c)
      = (0, 0) := by
  unfold computeLyapunovExponent
  rw [List.length_replicate, if_neg hm]
  by_cases h3 : m + 1 ≤ 3
  · have hrows : timeDelayEmbedding (List.replicate m c) 3 = [] := by
      unfold timeDelayEmbedding
      rw [List.length_replicate, if_pos h3]
    rw [hrows, if_pos (by norm_num : ([] : List (List ℚ)).length < 2)]
  · rw [timeDelayEmbedding_replicate m 3 c h3]
    by_cases h2 : (List.replicate (m - (3 - 1)) (List.replicate 3 c)).length < 2
    · rw [if_pos h2]
    · rw [if_neg h2, lyapunovDivergences_replicate]
      simp

set_option maxRecDepth 4000 in
/-- C9: feeding a constant risk sample into a chaos kernel whose whole history
is that same constant — any length, below or above the 40-sample minimum
window — yields `lyapunov_exponent = 0` and `is_unstable = false`.  The
theorem quantifies over the abstracted float subroutines (`logdiv`, `sqrtQ`,
the positive-feedback score `pf`) and the trend history, so the conclusion
holds whatever values those take. -/
theorem C9_constant_series_stable (logdiv : ℚ → ℚ → ℚ) (sqrtQ : ℚ → ℚ)
    (pf : List ℚ → List ℚ → ℚ) (c t0 : ℚ) (n : ℕ) (trends : List ℚ) :
    ((ChaosKernel.update logdiv sqrtQ pf
        { lyapunov_threshold := 0, min_window_size := 40, max_window_size := 120,
          embedding_dimension := 3, risk_history := List.replicate n c,
          trend_history := trends } c t0).2).lyapunov_exponent = 0
    ∧ ((ChaosKernel.update logdiv sqrtQ pf
        { lyapunov_threshold := 0, min_window_size := 40, max_window_size := 120,
          embedding_dimension := 3, risk_history := List.replicate n c,
          trend_history := trends } c t0).2).is_unstable = false := by
  unfold ChaosKernel.update
  simp only []
  rw [pushCap_replicate 120 n c]
  by_cases hM : (List.replicate (min (n + 1) 120) c).length < 40
  · rw [if_pos hM]
    exact ⟨rfl, rfl⟩
  · rw [if_neg hM]
    rw [List.length_replicate] at hM
    rw [computeLyapunovExponent_replicate logdiv sqrtQ 40 (min (n + 1) 120) c hM]
    refine ⟨rfl, ?_⟩
    simp

end FireMamba
